import Mathlib

/-!
Shallow embedding of the HLSL code generator in
`src/compiler/codegen/directx_codegen.py` (class `HLSLCodeGen`), together
with theorems checking the specification's claims about it.

The AST node classes live in the repository's `compiler/ast` module, which
is not part of `src/`; their fields are reconstructed from how
`directx_codegen.py` reads them and from the data model in the spec
(section 3).  Python's dynamic typing is modelled with sum types: a value
reaching `generate_expression` is a plain string, one of the known
expression node classes, or some other object (rendered by `str`); a value
reaching `generate_statement` that matches none of the statement classes
falls through to expression emission, so `Stmt` embeds `Expr` via
`Stmt.exprStmt`.  Optional attributes (a `VariableNode.vtype` that may be
`None`) are `Option String`, and Python truthiness / `None`-formatting are
modelled explicitly (`py_truthy`, `map_type_py`).
-/

namespace CrossTL

/-- Modelled from the spec and the fields read by the code generator:
expression-level AST nodes.  `str` is a plain Python string (a literal
token passed through verbatim); `unknown` stands for any other Python
object, carrying the text `str(obj)` would produce. -/
inductive Expr : Type where
  | str (s : String)
  | var (name : String) (vtype : Option String)
  | binaryOp (left : Expr) (op : String) (right : Expr)
  | functionCall (name : String) (args : List Expr)
  | memberAccess (obj : Expr) (member : String)
  | unknown (rendered : String)

/-- Modelled from the spec and the fields read by the code generator:
statement-level AST nodes.  `exprStmt` is any value that matches none of
the statement classes and is handled by the fallback branch of
`generate_statement`.  A Python `else_body` of `None` or `[]` is the empty
list (both are falsy). -/
inductive Stmt : Type where
  | assignment (name : Expr) (value : Expr)
  | ifStmt (condition : Expr) (if_body : List Stmt) (else_body : List Stmt)
  | forStmt (init : Stmt) (condition : Expr) (update : Stmt) (body : List Stmt)
  | ret (value : Expr)
  | exprStmt (e : Expr)

/-- Every expression node has positive size (used for termination). -/
theorem expr_sizeOf_pos (e : Expr) : 1 ≤ sizeOf e := by
  cases e <;> simp_arith

/-- Modelled from the spec: a function node with name, (type, name)
parameter list, return type and statement body. -/
structure FunctionNode where
  name : String
  params : List (String × String)
  return_type : String
  body : List Stmt

/-- Modelled from the spec: the program root, with (type, name) input and
output parameter lists and the functions in source order. -/
structure ShaderNode where
  inputs : List (String × String)
  outputs : List (String × String)
  functions : List FunctionNode

/-- An arbitrary Python value handed to `HLSLCodeGen.generate`: either a
`ShaderNode` or anything else. -/
inductive PyVal : Type where
  | shaderNode (node : ShaderNode)
  | other (rendered : String)

/-- Python `s.strip()`: remove leading and trailing whitespace. -/
def py_strip (s : String) : String :=
  ⟨(((s.data.dropWhile Char.isWhitespace).reverse).dropWhile Char.isWhitespace).reverse⟩

/-- Python `s[:-1]`: drop the last character (empty stays empty). -/
def py_drop_last (s : String) : String :=
  ⟨s.data.dropLast⟩

/-- Python truthiness of an optional string attribute: `None` and the
empty string are falsy. -/
def py_truthy : Option String → Bool
  | none => false
  | some s => !s.isEmpty

/-- Python `"    " * indent`. -/
def indent_str (indent : Nat) : String :=
  String.join (List.replicate indent "    ")

namespace HLSLCodeGen

/-- The `map_type` method: fixed table with identity fallback. -/
def map_type (vtype : String) : String :=
  if vtype = "void" then "void"
  else if vtype = "vec2" then "float2"
  else if vtype = "vec3" then "float3"
  else if vtype = "vec4" then "float4"
  else if vtype = "mat2" then "float2x2"
  else if vtype = "mat3" then "float3x3"
  else if vtype = "mat4" then "float4x4"
  else if vtype = "sampler2D" then "Texture2D"
  else vtype

/-- The `map_operator` method: fixed table with identity fallback. -/
def map_operator (op : String) : String :=
  if op = "PLUS" then "+"
  else if op = "MINUS" then "-"
  else if op = "MULTIPLY" then "*"
  else if op = "DIVIDE" then "/"
  else if op = "LESS_THAN" then "<"
  else if op = "GREATER_THAN" then ">"
  else if op = "LESS_EQUAL" then "<="
  else if op = "GREATER_EQUAL" then ">="
  else if op = "EQUAL" then "=="
  else if op = "NOT_EQUAL" then "!="
  else if op = "AND" then "&&"
  else if op = "OR" then "||"
  else op

/-- Python behavior of `map_type` applied to a `vtype` attribute that may be Python `None`:
`type_mapping.get(None, None)` is `None`, which an f-string renders as
the text `None`. -/
def map_type_py : Option String → String
  | some t => map_type t
  | none => "None"

mutual
/-- The `generate_expression` method. -/
def generate_expression : Expr → String
  | .str s => s
  | .var name _ => name
  | .binaryOp left op right =>
      "(" ++ generate_expression left ++ " " ++ map_operator op ++ " "
        ++ generate_expression right ++ ")"
  | .functionCall name args =>
      name ++ "(" ++ String.intercalate ", " (gen_expr_list args) ++ ")"
  | .memberAccess obj member =>
      generate_expression obj ++ "." ++ member
  | .unknown rendered => rendered

/-- The argument loop of the `FunctionCallNode` branch:
`self.generate_expression(arg) for arg in expr.args`. -/
def gen_expr_list : List Expr → List String
  | [] => []
  | e :: rest => generate_expression e :: gen_expr_list rest
end

/-- The `generate_assignment` method: a target that is a `VariableNode`
with a truthy `vtype` yields an in-place typed declaration, anything else
a plain reassignment. -/
def generate_assignment (name value : Expr) : String :=
  match name with
  | .var vname vtype =>
      if py_truthy vtype then
        map_type_py vtype ++ " " ++ vname ++ " = " ++ generate_expression value
      else
        generate_expression (.var vname vtype) ++ " = " ++ generate_expression value
  | other =>
      generate_expression other ++ " = " ++ generate_expression value

mutual
/-- The `generate_statement` method (dispatch on the statement class,
with the expression fallback for anything unrecognized). -/
def generate_statement (stmt : Stmt) (indent : Nat) : String :=
  match stmt with
  | .assignment name value =>
      indent_str indent ++ generate_assignment name value ++ ";\n"
  | .ifStmt condition if_body else_body =>
      generate_if condition if_body else_body indent
  | .forStmt init condition update body =>
      generate_for init condition update body indent
  | .ret value =>
      indent_str indent ++ "return " ++ generate_expression value ++ ";\n"
  | .exprStmt e =>
      indent_str indent ++ generate_expression e ++ ";\n"
termination_by sizeOf stmt

/-- A statement body loop: `for stmt in stmts: code += generate_statement(stmt, indent)`. -/
def gen_stmt_list (stmts : List Stmt) (indent : Nat) : String :=
  match stmts with
  | [] => ""
  | s :: rest => generate_statement s indent ++ gen_stmt_list rest indent
termination_by sizeOf stmts

/-- The `generate_if` method, applied to the fields of an `IfNode`. -/
def generate_if (condition : Expr) (if_body else_body : List Stmt) (indent : Nat) : String :=
  let istr := indent_str indent
  let code := istr ++ "if (" ++ generate_expression condition ++ ") \x7b\n"
      ++ gen_stmt_list if_body (indent + 1) ++ istr ++ "\x7d"
  let code := if else_body.isEmpty then code
      else code ++ " else \x7b\n" ++ gen_stmt_list else_body (indent + 1) ++ istr ++ "\x7d"
  code ++ "\n"
termination_by sizeOf condition + sizeOf if_body + sizeOf else_body
decreasing_by
all_goals simp_wf
all_goals (have h1 := expr_sizeOf_pos condition; omega)

/-- The `generate_for` method, applied to the fields of a `ForNode`.  The
inline branch fires whenever the init clause is an assignment whose target
is a `VariableNode` (its `vtype` is not checked); otherwise, and for the
update clause always, the clause is rendered as a statement at indent 0,
stripped, and its last character removed (the comment in the source says
it removes the trailing semicolon). -/
def generate_for (init : Stmt) (condition : Expr) (update : Stmt) (body : List Stmt)
    (indent : Nat) : String :=
  let istr := indent_str indent
  let initCode :=
    match init with
    | .assignment (.var vname vtype) value =>
        map_type_py vtype ++ " " ++ vname ++ " = " ++ generate_expression value
    | initOther => py_drop_last (py_strip (generate_statement initOther 0))
  let conditionCode := generate_expression condition
  let updateCode := py_drop_last (py_strip (generate_statement update 0))
  istr ++ "for (" ++ initCode ++ "; " ++ conditionCode ++ "; " ++ updateCode ++ ") \x7b\n"
    ++ gen_stmt_list body (indent + 1) ++ istr ++ "\x7d\n"
termination_by sizeOf init + sizeOf condition + sizeOf update + sizeOf body
decreasing_by
all_goals simp_wf
all_goals (have h1 := expr_sizeOf_pos condition; omega)
end

/-- One field line of a record declaration, as produced by the f-strings
in `generate_shader` (`tag` is `POSITION` or `SV_TARGET`, `i` the
enumeration index). -/
def field_line (tag : String) (i : Nat) (field : String × String) : String :=
  "    " ++ map_type field.1 ++ " " ++ field.2 ++ " : " ++ tag ++ toString i ++ ";\n"

/-- One record-declaration field loop of `generate_shader`:
`for i, (vtype, name) in enumerate(fields): code += field line`. -/
def record_fields (tag : String) (fields : List (String × String)) : String :=
  String.join (fields.enum.map (fun p => field_line tag p.1 p.2))

/-- The `generate_function` method. -/
def generate_function (node : FunctionNode) : String :=
  let paramsCode :=
    if node.name = "main" then "VS_INPUT input"
    else String.intercalate ", "
      (node.params.map (fun param => map_type param.1 ++ " " ++ param.2))
  let returnTypeCode := if node.name = "main" then "PS_OUTPUT" else map_type node.return_type
  let code := returnTypeCode ++ " " ++ node.name ++ "(" ++ paramsCode ++ ") \x7b\n"
  let code := if node.name = "main" then code ++ "    PS_OUTPUT output;\n" else code
  let code := code ++ gen_stmt_list node.body 1
  let code := if node.name = "main" then code ++ "    return output;\n" else code
  code ++ "\x7d\n"

/-- The function loop of `generate_shader`:
`for function in node.functions: code += generate_function(function) + "\n"`. -/
def functions_code : List FunctionNode → String
  | [] => ""
  | f :: rest => generate_function f ++ "\n" ++ functions_code rest

/-- The `generate_shader` method. -/
def generate_shader (node : ShaderNode) : String :=
  "struct VS_INPUT \x7b\n" ++ record_fields "POSITION" node.inputs ++ "\x7d;\n\n"
    ++ "struct PS_OUTPUT \x7b\n" ++ record_fields "SV_TARGET" node.outputs ++ "\x7d;\n\n"
    ++ functions_code node.functions

/-- The `generate` method: only a `ShaderNode` produces output. -/
def generate : PyVal → String
  | .shaderNode node => generate_shader node
  | .other _ => ""

/-- The keys of the `type_mapping` table in `map_type`. -/
def type_table_keys : List String :=
  ["void", "vec2", "vec3", "vec4", "mat2", "mat3", "mat4", "sampler2D"]

/-- The keys of the `op_map` table in `map_operator`. -/
def op_table_keys : List String :=
  ["PLUS", "MINUS", "MULTIPLY", "DIVIDE", "LESS_THAN", "GREATER_THAN",
   "LESS_EQUAL", "GREATER_EQUAL", "EQUAL", "NOT_EQUAL", "AND", "OR"]

/-- Claim C1: for every function named `main`, `generate_function` emits the fixed
signature `PS_OUTPUT main(VS_INPUT input)` (the original parameter list and
return type do not occur in the output), declares the output-record local
exactly once, immediately at the start of the emitted body, renders the
original body unchanged after it, and returns the output record exactly
once, immediately at the end, whatever the original body contained. -/
theorem claim1_entry_function_rewrite (node : FunctionNode) (h : node.name = "main") :
    generate_function node =
      "PS_OUTPUT main(VS_INPUT input) \x7b\n    PS_OUTPUT output;\n"
        ++ gen_stmt_list node.body 1 ++ "    return output;\n\x7d\n" := by
  simp [generate_function, h, String.append_assoc]

/-- Claim C1 witness: a `main` with a non-trivial parameter list, a non-record
return type and an explicit return statement in its body still gets the
rewritten signature, one output-record declaration at the start, and one
trailing return of the output record. -/
theorem claim1_entry_function_rewrite_witness :
    generate_function ⟨"main", [("vec3", "a"), ("vec2", "b")], "vec4", [.ret (.var "x" none)]⟩ =
      "PS_OUTPUT main(VS_INPUT input) \x7b\n    PS_OUTPUT output;\n    return x;\n    return output;\n\x7d\n" := by
  have h := claim1_entry_function_rewrite
    ⟨"main", [("vec3", "a"), ("vec2", "b")], "vec4", [.ret (.var "x" none)]⟩ rfl
  rw [h]
  simp only [gen_stmt_list, generate_statement, generate_expression, indent_str]
  rfl

/-- Claim C2: the record-field loop of `generate_shader` emits one line per
parameter, in declaration order, and the line at position `i` carries the
`map_type`-translated type, the parameter's name, and the positional index
`i` (`POSITION{i}` for inputs, `SV_TARGET{i}` for outputs, via `tag`). -/
theorem claim2_record_fields_indexed (tag : String) (fields : List (String × String))
    (i : Nat) (f : String × String) (hf : fields.get? i = some f) :
    record_fields tag fields = String.join (fields.enum.map (fun p => field_line tag p.1 p.2)) ∧
    (fields.enum.map (fun p => field_line tag p.1 p.2)).length = fields.length ∧
    (fields.enum.map (fun p => field_line tag p.1 p.2)).get? i =
      some ("    " ++ map_type f.1 ++ " " ++ f.2 ++ " : " ++ tag ++ toString i ++ ";\n") := by
  obtain ⟨ft, fn⟩ := f
  rw [List.get?_eq_getElem?] at hf
  refine ⟨rfl, by simp, ?_⟩
  simp [List.getElem?_map, List.getElem?_enum, hf, field_line]

/-- Claim C2 witness: in a two-input record the field at position 1 is emitted
with index 1 and the translated type. -/
theorem claim2_record_fields_indexed_witness :
    ([("vec3", "position"), ("vec4", "color")] : List (String × String)).get? 1 =
      some ("vec4", "color") ∧
    (([("vec3", "position"), ("vec4", "color")] : List (String × String)).enum.map
        (fun p => field_line "POSITION" p.1 p.2)).get? 1 =
      some "    float4 color : POSITION1;\n" := by
  have h := claim2_record_fields_indexed "POSITION"
    [("vec3", "position"), ("vec4", "color")] 1 ("vec4", "color") rfl
  exact ⟨rfl, Eq.trans h.2.2 rfl⟩

/-- Claim C3: every `BinaryOp` expression is rendered as an opening parenthesis,
the left subexpression, a space, the mapped operator, a space, the right
subexpression and a closing parenthesis, regardless of the operator. -/
theorem claim3_binaryop_parenthesized (left right : Expr) (op : String) :
    generate_expression (.binaryOp left op right) =
      "(" ++ generate_expression left ++ " " ++ map_operator op ++ " "
        ++ generate_expression right ++ ")" := by
  simp [generate_expression]

/-- Claim C4: `map_type` and `map_operator` realize exactly their fixed tables,
and on any input outside the table keys they return the input unchanged. -/
theorem claim4_mapper_tables_identity_fallback (t op : String)
    (ht : t ∉ type_table_keys) (hop : op ∉ op_table_keys) :
    (map_type "void" = "void" ∧ map_type "vec2" = "float2" ∧ map_type "vec3" = "float3" ∧
     map_type "vec4" = "float4" ∧ map_type "mat2" = "float2x2" ∧ map_type "mat3" = "float3x3" ∧
     map_type "mat4" = "float4x4" ∧ map_type "sampler2D" = "Texture2D") ∧
    (map_operator "PLUS" = "+" ∧ map_operator "MINUS" = "-" ∧ map_operator "MULTIPLY" = "*" ∧
     map_operator "DIVIDE" = "/" ∧ map_operator "LESS_THAN" = "<" ∧
     map_operator "GREATER_THAN" = ">" ∧ map_operator "LESS_EQUAL" = "<=" ∧
     map_operator "GREATER_EQUAL" = ">=" ∧ map_operator "EQUAL" = "==" ∧
     map_operator "NOT_EQUAL" = "!=" ∧ map_operator "AND" = "&&" ∧ map_operator "OR" = "||") ∧
    map_type t = t ∧ map_operator op = op := by
  refine ⟨⟨rfl, rfl, rfl, rfl, rfl, rfl, rfl, rfl⟩,
    ⟨rfl, rfl, rfl, rfl, rfl, rfl, rfl, rfl, rfl, rfl, rfl, rfl⟩, ?_, ?_⟩
  · simp only [type_table_keys, List.mem_cons, List.not_mem_nil, or_false, not_or] at ht
    obtain ⟨h1, h2, h3, h4, h5, h6, h7, h8⟩ := ht
    simp [map_type, h1, h2, h3, h4, h5, h6, h7, h8]
  · simp only [op_table_keys, List.mem_cons, List.not_mem_nil, or_false, not_or] at hop
    obtain ⟨h1, h2, h3, h4, h5, h6, h7, h8, h9, h10, h11, h12⟩ := hop
    simp [map_operator, h1, h2, h3, h4, h5, h6, h7, h8, h9, h10, h11, h12]

/-- Claim C4 witness: an unknown type name and an unknown operator token are
passed through unchanged. -/
theorem claim4_mapper_tables_identity_fallback_witness :
    map_type "half3" = "half3" ∧ map_operator "POW" = "POW" := by
  have h := claim4_mapper_tables_identity_fallback "half3" "POW" (by decide) (by decide)
  exact ⟨h.2.2.1, h.2.2.2⟩

/-- Claim C5: a loop whose init clause is an assignment to a variable without a
declared type (Python `vtype` is `None`) is nevertheless taken through the
inline branch of `generate_for`, which formats `map_type(None)` — Python
`None` — as the declaration type, emitting `for (None i = 0; ...)`; the
generic statement path prescribed by the claim for such an init would have
produced the clause `i = 0` instead. -/
theorem claim5_for_untyped_init_divergence :
    generate_for (.assignment (.var "i" none) (.str "0")) (.str "i < 4")
        (.assignment (.var "i" none) (.str "i + 1")) [] 0 =
      "for (None i = 0; i < 4; i = i + 1) \x7b\n\x7d\n" ∧
    py_drop_last (py_strip
        (generate_statement (.assignment (.var "i" none) (.str "0")) 0)) = "i = 0" := by
  constructor
  · simp only [generate_for, generate_statement, gen_stmt_list, generate_assignment,
      generate_expression, map_type_py, py_truthy, py_strip, py_drop_last, indent_str]
    rfl
  · simp only [generate_statement, generate_assignment, generate_expression,
      py_truthy, py_strip, py_drop_last, indent_str]
    rfl

/-- Claim C6: the generated output is the input record declaration, a blank
line, the output record declaration, a blank line, then the function
definitions in the program's original order, each followed by a blank
line (so consecutive functions are separated by blank lines). -/
theorem claim6_shader_output_layout (node : ShaderNode) (f : FunctionNode)
    (rest : List FunctionNode) :
    generate_shader node =
      ("struct VS_INPUT \x7b\n" ++ record_fields "POSITION" node.inputs ++ "\x7d;\n") ++ "\n"
        ++ (("struct PS_OUTPUT \x7b\n" ++ record_fields "SV_TARGET" node.outputs ++ "\x7d;\n")
        ++ "\n" ++ functions_code node.functions) ∧
    functions_code [] = "" ∧
    functions_code (f :: rest) = (generate_function f ++ "\n") ++ functions_code rest := by
  refine ⟨?_, rfl, rfl⟩
  simp [generate_shader, String.append_assoc]
  rw [show ("\x7d;\n\nstruct PS_OUTPUT \x7b\n" : String) =
      "\x7d;\n\n" ++ "struct PS_OUTPUT \x7b\n" from rfl, String.append_assoc]

/-- Claim C7: generation is deterministic, a pure function of the AST: equal
inputs produce equal outputs for `generate`, `map_type` and
`map_operator` (in the embedding the code mutates nothing, so every call
on the same value is literally the same computation). -/
theorem claim7_generation_deterministic (a b : PyVal) (t u o p : String)
    (hab : a = b) (htu : t = u) (hop : o = p) :
    generate a = generate b ∧ map_type t = map_type u ∧ map_operator o = map_operator p := by
  subst hab; subst htu; subst hop
  exact ⟨rfl, rfl, rfl⟩

/-- Claim C7 witness: repeated generation on one concrete shader and repeated
mapper calls on one concrete token agree. -/
theorem claim7_generation_deterministic_witness :
    generate (.shaderNode ⟨[("vec3", "p")], [("vec4", "c")], []⟩) =
      generate (.shaderNode ⟨[("vec3", "p")], [("vec4", "c")], []⟩) ∧
    map_type "vec3" = map_type "vec3" ∧ map_operator "PLUS" = map_operator "PLUS" :=
  claim7_generation_deterministic _ _ _ _ _ _ rfl rfl rfl

/-- Claim C8: a statement matching no recognized statement variant falls back to
expression emission followed by the terminator, and an expression matching
no recognized expression variant is rendered as its best-effort text
(Python `str(expr)`); both emitters are total, so no failure is raised. -/
theorem claim8_fallback_rendering (e : Expr) (indent : Nat) (r : String) :
    generate_statement (.exprStmt e) indent =
      indent_str indent ++ generate_expression e ++ ";\n" ∧
    generate_expression (.unknown r) = r := by
  constructor
  · simp [generate_statement]
  · simp [generate_expression]

/-- Claim C9: generation terminates on every finite AST: all the emitters are
total Lean functions (accepted by the termination checker with a
`sizeOf`-based measure, i.e. the mutual recursion is bounded by the size
of the AST), so each produces a result on every input. -/
theorem claim9_generation_terminates (a : PyVal) (stmt : Stmt) (e : Expr) (indent : Nat) :
    ∃ sa ss se : String,
      generate a = sa ∧ generate_statement stmt indent = ss ∧ generate_expression e = se :=
  ⟨_, _, _, rfl, rfl, rfl⟩

/-- Claim C10: any input to `generate` that is not a `ShaderNode` yields the
empty string — no record or function text and no error. -/
theorem claim10_non_shader_returns_empty (r : String) :
    generate (.other r) = "" := rfl

end HLSLCodeGen

end CrossTL
